import Mathlib

/-!
Shallow embedding of the snapshot commands of the doctl CLI
(`commands/snapshots.go`) together with the generic completion poller
described in the design document.

The Go functions `RunSnapshotList`, `RunSnapshotGet` and `RunSnapshotDelete`
read flags and positional arguments, call the typed snapshots service, and
display the result.  Here flag values and positional arguments are explicit
parameters, the snapshots service is a record of oracles (the outcome of each
possible remote call), and each embedded command returns the value it would
display (or the error it returns) paired with the ordered trace of API calls
it performed.  Glob patterns are embedded as their compiled matchers
(`String → Bool`); `glob.Compile` is an oracle `String → Option (String → Bool)`
returning `none` exactly when compilation fails.
-/

namespace Doctl

/-- The snapshot DTO, restricted to the fields the snapshot commands read:
`ID`, `Name` and `Regions` (`do.Snapshot` wrapping `godo.Snapshot`). -/
structure Snapshot where
  ID : String
  Name : String
  Regions : List String
deriving DecidableEq, Repr

/-- Errors a snapshot command can return.  `unknownGlob g` embeds
`fmt.Errorf("unknown glob %q", globStr)`; `missingArgs ns` embeds
`doctl.NewMissingArgsErr(c.NS)`; `operationAborted` embeds
`errOperationAborted`; `apiError` stands for an arbitrary error value
produced by an underlying API call and is carried through unchanged. -/
inductive Err where
  | unknownGlob : String → Err
  | missingArgs : String → Err
  | operationAborted : Err
  | apiError : String → Err
deriving DecidableEq, Repr

/-- One remote API call performed by a snapshot command. -/
inductive ApiCall where
  | listDroplet : ApiCall
  | listVolumeByRegion : String → ApiCall
  | listVolume : ApiCall
  | listAll : ApiCall
  | getSnapshot : String → ApiCall
  | deleteSnapshot : String → ApiCall
deriving DecidableEq, Repr

/-- Whether a call mutates remote state: only snapshot deletion does; the
list and get calls are read-only. -/
def ApiCall.isMutating : ApiCall → Bool
  | .deleteSnapshot _ => true
  | _ => false

/-- The glob-compilation loop of `RunSnapshotList` (lines 84-92): each
positional argument is compiled in order; the first argument that fails to
compile aborts the command with the `unknown glob` error, otherwise the
compiled matchers are accumulated in argument order. -/
def compileGlobs (compile : String → Option (String → Bool)) :
    List String → Except Err (List (String → Bool))
  | [] => .ok []
  | globStr :: rest =>
    match compile globStr with
    | none => .error (.unknownGlob globStr)
    | some g =>
      match compileGlobs compile rest with
      | .error e => .error e
      | .ok gs => .ok (g :: gs)

/-- The glob-matching part of the filter loop of `RunSnapshotList`
(lines 121-133): `skip` starts `true`, is forced `false` when there are no
patterns, and otherwise every pattern is tried against the snapshot ID and
the snapshot name, clearing `skip` on a match (no early exit in the source). -/
def globSkip (matchers : List (String → Bool)) (s : Snapshot) : Bool :=
  if matchers.length = 0 then
    false
  else
    matchers.foldl (fun skip m =>
      let skip1 := if m s.ID then false else skip
      if m s.Name then false else skip1) true

/-- The region-filter loop of `RunSnapshotList` (lines 136-144): walk the
snapshot regions, setting `skip` on a mismatch and clearing it with `break`
on the first match; an empty region list leaves `skip` unchanged. -/
def regionSkip (region : String) : List String → Bool → Bool
  | [], skip => skip
  | snapshotRegion :: rest, _skip =>
    if region ≠ snapshotRegion then
      regionSkip region rest true
    else
      false

/-- The full filter loop of `RunSnapshotList` (lines 120-150): for each
fetched snapshot compute the glob `skip`, then — only when the snapshot
survived globbing and a region flag is present — the region `skip`, and
append the survivors to `matchedList` in fetch order. -/
def snapshotFilter (matchers : List (String → Bool)) (region : String)
    (list : List Snapshot) : List Snapshot :=
  list.foldl (fun matchedList snapshot =>
    let skip := globSkip matchers snapshot
    let skip2 :=
      if !skip && region ≠ "" then regionSkip region snapshot.Regions skip
      else skip
    if !skip2 then matchedList ++ [snapshot] else matchedList) []

/-- The fetch switch of `RunSnapshotList` (lines 97-118): `droplet` uses
`ListDroplet`, `volume` uses `ListVolumeSnapshotByRegion` when a region flag
is present and `ListVolume` otherwise, and anything else uses `List`.  The
four oracles give the outcome of each remote call; the performed call is
returned alongside. -/
def fetchList (listDroplet listVolume listAll : Except Err (List Snapshot))
    (listVolumeByRegion : String → Except Err (List Snapshot))
    (restype region : String) : Except Err (List Snapshot) × ApiCall :=
  if restype = "droplet" then
    (listDroplet, .listDroplet)
  else if restype = "volume" then
    if region ≠ "" then (listVolumeByRegion region, .listVolumeByRegion region)
    else (listVolume, .listVolume)
  else
    (listAll, .listAll)

/-- Embedding of `RunSnapshotList` (lines 70-154): compile the positional
globs (aborting on the first bad one before any fetch), perform exactly one
listing call according to the resource-type and region flags, return its
error unchanged on failure, and otherwise display the filtered list. -/
def RunSnapshotList (compile : String → Option (String → Bool))
    (listDroplet listVolume listAll : Except Err (List Snapshot))
    (listVolumeByRegion : String → Except Err (List Snapshot))
    (restype region : String) (args : List String) :
    Except Err (List Snapshot) × List ApiCall :=
  match compileGlobs compile args with
  | .error e => (.error e, [])
  | .ok matchers =>
    match fetchList listDroplet listVolume listAll listVolumeByRegion restype region with
    | (.error e, call) => (.error e, [call])
    | (.ok list, call) => (.ok (snapshotFilter matchers region list), [call])

/-- The fetch loop of `RunSnapshotGet` (lines 167-173): get each ID in
order, returning the first error unchanged and otherwise accumulating the
fetched snapshots in argument order. -/
def snapshotGetLoop (get : String → Except Err Snapshot) :
    List String → Except Err (List Snapshot) × List ApiCall
  | [] => (.ok [], [])
  | id :: rest =>
    match get id with
    | .error e => (.error e, [.getSnapshot id])
    | .ok s =>
      match snapshotGetLoop get rest with
      | (.error e, calls) => (.error e, .getSnapshot id :: calls)
      | (.ok l, calls) => (.ok (s :: l), .getSnapshot id :: calls)

/-- Embedding of `RunSnapshotGet` (lines 157-176): an empty argument list
yields `doctl.NewMissingArgsErr(c.NS)` before any API call; otherwise each
ID is fetched in order, stopping at the first failure, and the fetched
snapshots are displayed. -/
def RunSnapshotGet (get : String → Except Err Snapshot) (ns : String)
    (args : List String) : Except Err (List Snapshot) × List ApiCall :=
  if args.length = 0 then
    (.error (.missingArgs ns), [])
  else
    snapshotGetLoop get args

/-- The delete loop of `RunSnapshotDelete` (lines 193-198): delete each ID
in order, returning the first error unchanged. -/
def snapshotDeleteLoop (del : String → Except Err Unit) :
    List String → Except Err Unit × List ApiCall
  | [] => (.ok (), [])
  | id :: rest =>
    match del id with
    | .error e => (.error e, [.deleteSnapshot id])
    | .ok _ =>
      match snapshotDeleteLoop del rest with
      | (res, calls) => (res, .deleteSnapshot id :: calls)

/-- Embedding of `RunSnapshotDelete` (lines 179-203): an empty argument list
yields the missing-arguments error; then, only if the force flag is set or
the confirmation prompt is accepted (`AskForConfirmDelete` returning `nil`,
embedded as `confirmAccepted`), each ID is deleted in order stopping at the
first failure; otherwise the command returns `errOperationAborted` without
performing any call. -/
def RunSnapshotDelete (del : String → Except Err Unit) (ns : String)
    (force confirmAccepted : Bool) (args : List String) :
    Except Err Unit × List ApiCall :=
  if args.length = 0 then
    (.error (.missingArgs ns), [])
  else if force || confirmAccepted then
    snapshotDeleteLoop del args
  else
    (.error .operationAborted, [])

/-- Modelled from the spec: the completion poller (the wait helper used after
mutating calls, e.g. waiting for an app deployment to reach a terminal phase;
its implementation is not under `src/`, only its test
`TestRunAppsCreateDeploymentWithWait`).  Per the design document it
"repeatedly fetch[es] status at a fixed interval until a terminal phase is
observed or a maximum attempt count is exceeded, then return[s] the final
fetched state or a timeout error".  `fetch k` is the state observed at the
k-th attempt, `isTerminal` the hardcoded terminal-phase predicate, the second
`Nat` the number of attempts remaining. -/
def pollForCompletion {σ : Type} (fetch : Nat → σ) (isTerminal : σ → Bool) :
    Nat → Nat → Except String σ
  | _, 0 => .error "timeout waiting for completion"
  | attempt, Nat.succ remaining =>
    let current := fetch attempt
    if isTerminal current then .ok current
    else pollForCompletion fetch isTerminal (attempt + 1) remaining

/-- The combined skip decision of the filter loop of `RunSnapshotList` for a
single snapshot: glob skip first, then the region skip when the snapshot
survived globbing and a region flag is present. -/
def displaySkip (matchers : List (String → Bool)) (region : String)
    (s : Snapshot) : Bool :=
  let skip := globSkip matchers s
  if !skip && region ≠ "" then regionSkip region s.Regions skip else skip

theorem foldl_filter_eq {α : Type} (p : α → Bool) (l : List α) :
    ∀ acc : List α,
      l.foldl (fun a s => if p s then a ++ [s] else a) acc = acc ++ l.filter p := by
  induction l with
  | nil => intro acc; simp
  | cons x l ih =>
    intro acc
    by_cases h : p x = true
    · rw [List.filter_cons_of_pos h]
      simp only [List.foldl_cons, if_pos h, ih]
      simp
    · rw [List.filter_cons_of_neg h]
      simp only [List.foldl_cons, if_neg h, ih]

theorem snapshotFilter_eq_filter (matchers : List (String → Bool))
    (region : String) (list : List Snapshot) :
    snapshotFilter matchers region list =
      list.filter (fun s => !displaySkip matchers region s) := by
  have h := foldl_filter_eq (fun s => !displaySkip matchers region s) list []
  simpa [snapshotFilter, displaySkip] using h

theorem globSkip_fold_eq (s : Snapshot) (ms : List (String → Bool)) :
    ∀ b : Bool,
      ms.foldl (fun skip m =>
        let skip1 := if m s.ID then false else skip
        if m s.Name then false else skip1) b
        = (b && !(ms.any (fun m => m s.ID || m s.Name))) := by
  induction ms with
  | nil => intro b; simp
  | cons m ms ih =>
    intro b
    simp only [List.foldl_cons, List.any_cons, ih]
    by_cases h1 : m s.ID = true <;> by_cases h2 : m s.Name = true <;>
      simp [h1, h2]

theorem globSkip_eq (matchers : List (String → Bool)) (s : Snapshot) :
    globSkip matchers s =
      !(matchers.isEmpty || matchers.any (fun m => m s.ID || m s.Name)) := by
  cases matchers with
  | nil => simp [globSkip]
  | cons m ms =>
    unfold globSkip
    rw [if_neg (by simp), globSkip_fold_eq s (m :: ms) true]
    simp

theorem regionSkip_eq (region : String) :
    ∀ (rs : List String) (b : Bool),
      regionSkip region rs b = if rs.isEmpty then b else !(rs.contains region) := by
  intro rs
  induction rs with
  | nil => intro b; simp [regionSkip]
  | cons x xs ih =>
    intro b
    by_cases h : region = x
    · simp [regionSkip, h]
    · rw [regionSkip, if_pos h, ih true]
      have hbeq : (x == region) = false := by
        simp [beq_iff_eq]
        intro he
        exact h he.symm
      cases xs with
      | nil => simp [hbeq, h]
      | cons y ys =>
        simp only [List.isEmpty_cons, if_neg Bool.false_ne_true, List.contains_cons, hbeq,
          Bool.false_or]
        simp [h]

theorem displaySkip_empty_region (matchers : List (String → Bool))
    (s : Snapshot) :
    (!displaySkip matchers "" s) =
      (matchers.isEmpty || matchers.any (fun m => m s.ID || m s.Name)) := by
  simp [displaySkip, globSkip_eq]

theorem displaySkip_with_region (matchers : List (String → Bool))
    (region : String) (s : Snapshot) (h : region ≠ "") :
    (!displaySkip matchers region s) =
      ((matchers.isEmpty || matchers.any (fun m => m s.ID || m s.Name)) &&
        (s.Regions.isEmpty || s.Regions.contains region)) := by
  simp only [displaySkip, regionSkip_eq, globSkip_eq, h]
  cases hg : (matchers.isEmpty || matchers.any (fun m => m s.ID || m s.Name)) <;>
    cases he : s.Regions.isEmpty <;>
      simp [hg, he, h]

theorem compileGlobs_error (compile : String → Option (String → Bool)) :
    ∀ (args : List String) (e : Err), compileGlobs compile args = .error e →
      ∃ g, g ∈ args ∧ compile g = none ∧ e = .unknownGlob g := by
  intro args
  induction args with
  | nil => intro e h; simp [compileGlobs] at h
  | cons x xs ih =>
    intro e h
    rw [compileGlobs] at h
    cases hx : compile x with
    | none =>
      rw [hx] at h
      refine ⟨x, by simp, hx, ?_⟩
      cases h
      rfl
    | some g =>
      rw [hx] at h
      cases hr : compileGlobs compile xs with
      | error e2 =>
        rw [hr] at h
        obtain ⟨g0, hmem, hcomp, he⟩ := ih e2 hr
        cases h
        exact ⟨g0, by simp [hmem], hcomp, he⟩
      | ok gs => rw [hr] at h; cases h

theorem snapshotGetLoop_all_ok (get : String → Except Err Snapshot)
    (f : String → Snapshot) :
    ∀ args : List String, (∀ id ∈ args, get id = .ok (f id)) →
      snapshotGetLoop get args = (.ok (args.map f), args.map ApiCall.getSnapshot) := by
  intro args
  induction args with
  | nil => intro _; rfl
  | cons x xs ih =>
    intro h
    have hx : get x = .ok (f x) := h x (by simp)
    have hxs := ih (fun id hid => h id (by simp [hid]))
    rw [snapshotGetLoop, hx, hxs]
    simp

theorem snapshotGetLoop_first_error (get : String → Except Err Snapshot)
    (id : String) (e : Err) (hid : get id = .error e) :
    ∀ (pre rest : List String), (∀ x ∈ pre, ∃ s, get x = .ok s) →
      snapshotGetLoop get (pre ++ id :: rest) =
        (.error e, (pre ++ [id]).map ApiCall.getSnapshot) := by
  intro pre
  induction pre with
  | nil =>
    intro rest _
    rw [List.nil_append, snapshotGetLoop, hid]
    simp
  | cons x xs ih =>
    intro rest h
    obtain ⟨s, hs⟩ := h x (by simp)
    have hxs := ih rest (fun y hy => h y (by simp [hy]))
    rw [List.cons_append, snapshotGetLoop, hs, hxs]
    simp

theorem snapshotDeleteLoop_first_error (del : String → Except Err Unit)
    (id : String) (e : Err) (hid : del id = .error e) :
    ∀ (pre rest : List String), (∀ x ∈ pre, del x = .ok ()) →
      snapshotDeleteLoop del (pre ++ id :: rest) =
        (.error e, (pre ++ [id]).map ApiCall.deleteSnapshot) := by
  intro pre
  induction pre with
  | nil =>
    intro rest _
    rw [List.nil_append, snapshotDeleteLoop, hid]
    simp
  | cons x xs ih =>
    intro rest h
    have hx : del x = .ok () := h x (by simp)
    have hxs := ih rest (fun y hy => h y (by simp [hy]))
    rw [List.cons_append, snapshotDeleteLoop, hx, hxs]
    simp

theorem snapshotDeleteLoop_all_ok (del : String → Except Err Unit) :
    ∀ args : List String, (∀ id ∈ args, del id = .ok ()) →
      snapshotDeleteLoop del args = (.ok (), args.map ApiCall.deleteSnapshot) := by
  intro args
  induction args with
  | nil => intro _; rfl
  | cons x xs ih =>
    intro h
    have hx : del x = .ok () := h x (by simp)
    have hxs := ih (fun id hid => h id (by simp [hid]))
    rw [snapshotDeleteLoop, hx, hxs]
    simp

theorem snapshotDeleteLoop_calls_le (del : String → Except Err Unit) :
    ∀ args : List String,
      (snapshotDeleteLoop del args).2.length ≤ args.length := by
  intro args
  induction args with
  | nil => simp [snapshotDeleteLoop]
  | cons x xs ih =>
    rw [snapshotDeleteLoop]
    cases hx : del x with
    | error e => simp
    | ok u =>
      rcases hr : snapshotDeleteLoop del xs with ⟨res, calls⟩
      rw [hr] at ih
      simpa using Nat.succ_le_succ ih

theorem snapshotGetLoop_no_mutation (get : String → Except Err Snapshot) :
    ∀ args : List String,
      (snapshotGetLoop get args).2.filter ApiCall.isMutating = [] := by
  intro args
  induction args with
  | nil => simp [snapshotGetLoop]
  | cons x xs ih =>
    rw [snapshotGetLoop]
    cases hx : get x with
    | error e => simp [ApiCall.isMutating]
    | ok s =>
      rcases hr : snapshotGetLoop get xs with ⟨res, calls⟩
      rw [hr] at ih
      cases res <;> simp [ApiCall.isMutating, ih]

theorem fetchList_not_mutating (listDroplet listVolume listAll : Except Err (List Snapshot))
    (listVolumeByRegion : String → Except Err (List Snapshot))
    (restype region : String) :
    ApiCall.isMutating
      (fetchList listDroplet listVolume listAll listVolumeByRegion restype region).2
      = false := by
  unfold fetchList
  split_ifs <;> rfl

/-- Claim C1: for every list of snapshots returned by the API and every list
of positional glob arguments, when the region flag is empty,
`RunSnapshotList` displays exactly those snapshots `s` such that the glob
list is empty, or at least one compiled glob pattern matches `s.ID` or
matches `s.Name`; all other snapshots are excluded, and the displayed
snapshots keep the order of the fetched list. -/
theorem snapshotList_glob_filter
    (compile : String → Option (String → Bool))
    (listDroplet listVolume listAll : Except Err (List Snapshot))
    (listVolumeByRegion : String → Except Err (List Snapshot))
    (restype : String) (args : List String)
    (matchers : List (String → Bool))
    (hc : compileGlobs compile args = .ok matchers)
    (list : List Snapshot)
    (hf : (fetchList listDroplet listVolume listAll listVolumeByRegion restype "").1 =
      .ok list) :
    (RunSnapshotList compile listDroplet listVolume listAll listVolumeByRegion
        restype "" args).1 =
      .ok (list.filter (fun s =>
        matchers.isEmpty || matchers.any (fun m => m s.ID || m s.Name))) := by
  unfold RunSnapshotList
  rw [hc]
  rcases hfl : fetchList listDroplet listVolume listAll listVolumeByRegion restype ""
    with ⟨res, call⟩
  rw [hfl] at hf
  simp only at hf
  subst hf
  have hpred : (fun s => !displaySkip matchers "" s) =
      (fun s : Snapshot =>
        matchers.isEmpty || matchers.any (fun m => m s.ID || m s.Name)) :=
    funext (fun s => displaySkip_empty_region matchers s)
  simp [snapshotFilter_eq_filter, hpred]

/-- Witness for claim C1 at a concrete input: one glob argument that matches
the first snapshot ID only. -/
theorem snapshotList_glob_filter_witness :
    (RunSnapshotList (fun g => some (fun str => str == g))
      (.ok []) (.ok []) (.ok [⟨"a", "x", []⟩, ⟨"b", "y", []⟩])
      (fun _ => .ok []) "" "" ["a"]).1 =
      .ok (([⟨"a", "x", []⟩, ⟨"b", "y", []⟩] : List Snapshot).filter (fun s =>
        ([fun str => str == "a"] : List (String → Bool)).isEmpty ||
          ([fun str => str == "a"] : List (String → Bool)).any
            (fun m => m s.ID || m s.Name))) :=
  snapshotList_glob_filter (fun g => some (fun str => str == g))
    (.ok []) (.ok []) (.ok [⟨"a", "x", []⟩, ⟨"b", "y", []⟩])
    (fun _ => .ok []) "" ["a"] [fun str => str == "a"] rfl
    [⟨"a", "x", []⟩, ⟨"b", "y", []⟩] rfl

/-- Claim C8: with a non-empty region flag, a snapshot that passes the glob
filter is displayed iff its `Regions` list is empty or contains the
requested region; in particular a snapshot with an empty `Regions` list is
never excluded by the region filter. -/
theorem snapshotList_region_filter
    (compile : String → Option (String → Bool))
    (listDroplet listVolume listAll : Except Err (List Snapshot))
    (listVolumeByRegion : String → Except Err (List Snapshot))
    (restype region : String) (hr : region ≠ "")
    (args : List String)
    (matchers : List (String → Bool))
    (hc : compileGlobs compile args = .ok matchers)
    (list : List Snapshot)
    (hf : (fetchList listDroplet listVolume listAll listVolumeByRegion restype region).1 =
      .ok list) :
    (RunSnapshotList compile listDroplet listVolume listAll listVolumeByRegion
        restype region args).1 =
      .ok (list.filter (fun s =>
        (matchers.isEmpty || matchers.any (fun m => m s.ID || m s.Name)) &&
          (s.Regions.isEmpty || s.Regions.contains region))) := by
  unfold RunSnapshotList
  rw [hc]
  rcases hfl : fetchList listDroplet listVolume listAll listVolumeByRegion restype region
    with ⟨res, call⟩
  rw [hfl] at hf
  simp only at hf
  subst hf
  have hpred : (fun s => !displaySkip matchers region s) =
      (fun s : Snapshot =>
        (matchers.isEmpty || matchers.any (fun m => m s.ID || m s.Name)) &&
          (s.Regions.isEmpty || s.Regions.contains region)) :=
    funext (fun s => displaySkip_with_region matchers region s hr)
  simp [snapshotFilter_eq_filter, hpred]

/-- Witness for claim C8 at a concrete input: no globs, region `r1`; the
snapshot with empty regions and the one containing `r1` are kept, the one
with only `r2` is dropped. -/
theorem snapshotList_region_filter_witness :
    (RunSnapshotList (fun _ => none) (.ok []) (.ok [])
      (.ok [⟨"a", "x", []⟩, ⟨"b", "y", ["r1", "r2"]⟩, ⟨"c", "z", ["r2"]⟩])
      (fun _ => .ok []) "" "r1" []).1 =
      .ok (([⟨"a", "x", []⟩, ⟨"b", "y", ["r1", "r2"]⟩, ⟨"c", "z", ["r2"]⟩] :
          List Snapshot).filter (fun s =>
        (([] : List (String → Bool)).isEmpty ||
            ([] : List (String → Bool)).any (fun m => m s.ID || m s.Name)) &&
          (s.Regions.isEmpty || s.Regions.contains "r1"))) :=
  snapshotList_region_filter (fun _ => none) (.ok []) (.ok [])
    (.ok [⟨"a", "x", []⟩, ⟨"b", "y", ["r1", "r2"]⟩, ⟨"c", "z", ["r2"]⟩])
    (fun _ => .ok []) "" "r1" (by decide) [] [] rfl
    [⟨"a", "x", []⟩, ⟨"b", "y", ["r1", "r2"]⟩, ⟨"c", "z", ["r2"]⟩] rfl

/-- Claim C9: when some positional glob argument fails to compile,
`RunSnapshotList` returns the `unknown glob` error quoting that argument and
performs no snapshot-listing API call (the error occurs before any fetch). -/
theorem snapshotList_unknown_glob
    (compile : String → Option (String → Bool))
    (listDroplet listVolume listAll : Except Err (List Snapshot))
    (listVolumeByRegion : String → Except Err (List Snapshot))
    (restype region : String) (args : List String) (e : Err)
    (h : compileGlobs compile args = .error e) :
    RunSnapshotList compile listDroplet listVolume listAll listVolumeByRegion
        restype region args = (.error e, []) ∧
      ∃ g, g ∈ args ∧ compile g = none ∧ e = .unknownGlob g := by
  constructor
  · unfold RunSnapshotList
    rw [h]
  · exact compileGlobs_error compile args e h

/-- Witness for claim C9 at a concrete input: a compiler rejecting every
pattern and a single argument. -/
theorem snapshotList_unknown_glob_witness :
    RunSnapshotList (fun _ => none) (.ok []) (.ok []) (.ok [])
        (fun _ => .ok []) "" "" ["[x"] =
      (.error (.unknownGlob "[x"), []) ∧
      ∃ g, g ∈ ["[x"] ∧ (fun _ : String => (none : Option (String → Bool))) g = none ∧
        Err.unknownGlob "[x" = .unknownGlob g :=
  snapshotList_unknown_glob (fun _ => none) (.ok []) (.ok []) (.ok [])
    (fun _ => .ok []) "" "" ["[x"] (.unknownGlob "[x") rfl

/-- Claim C2: a `RunSnapshotDelete` invocation with a non-empty ID list, the
force flag unset and the confirmation prompt not accepted returns
`errOperationAborted` and performs no Delete API call for any ID. -/
theorem snapshotDelete_aborted (del : String → Except Err Unit) (ns : String)
    (args : List String) (hne : args ≠ []) :
    RunSnapshotDelete del ns false false args =
      (.error .operationAborted, []) := by
  unfold RunSnapshotDelete
  rw [if_neg (by simpa using hne)]
  rfl

/-- Witness for claim C2 at a concrete input: two IDs, confirmation
declined; no delete call is performed. -/
theorem snapshotDelete_aborted_witness :
    RunSnapshotDelete (fun _ => .ok ()) "compute.snapshot" false false
        ["386734086", "386734087"] =
      (.error .operationAborted, []) :=
  snapshotDelete_aborted (fun _ => .ok ()) "compute.snapshot"
    ["386734086", "386734087"] (by simp)

/-- Claim C3: in a `RunSnapshotGet` or `RunSnapshotDelete` invocation over a
list of IDs, when the underlying API call for the k-th ID fails (the
preceding ones succeeding), the calls for all IDs before the k-th were
performed, no call for any ID after the k-th is performed, and the command
returns that error: both loops stop at the first failure. -/
theorem snapshotLoops_stop_at_first_failure
    (get : String → Except Err Snapshot) (del : String → Except Err Unit)
    (ns : String) (force confirmAccepted : Bool)
    (hrun : (force || confirmAccepted) = true)
    (pre rest : List String) (id : String) (e e2 : Err)
    (hgpre : ∀ x ∈ pre, ∃ s, get x = .ok s) (hgid : get id = .error e)
    (hdpre : ∀ x ∈ pre, del x = .ok ()) (hdid : del id = .error e2) :
    RunSnapshotGet get ns (pre ++ id :: rest) =
        (.error e, (pre ++ [id]).map ApiCall.getSnapshot) ∧
      RunSnapshotDelete del ns force confirmAccepted (pre ++ id :: rest) =
        (.error e2, (pre ++ [id]).map ApiCall.deleteSnapshot) := by
  constructor
  · unfold RunSnapshotGet
    rw [if_neg (by simp)]
    exact snapshotGetLoop_first_error get id e hgid pre rest hgpre
  · unfold RunSnapshotDelete
    rw [if_neg (by simp), hrun, if_pos rfl]
    exact snapshotDeleteLoop_first_error del id e2 hdid pre rest hdpre

/-- Witness for claim C3 at a concrete input: three IDs with the second one
failing; exactly the first two calls are performed. -/
theorem snapshotLoops_stop_at_first_failure_witness :
    RunSnapshotGet
        (fun id => if id == "bad" then .error (.apiError "boom") else .ok ⟨id, "n", []⟩)
        "compute.snapshot" (["i1"] ++ "bad" :: ["i3"]) =
        (.error (.apiError "boom"),
          (["i1"] ++ ["bad"]).map ApiCall.getSnapshot) ∧
      RunSnapshotDelete
        (fun id => if id == "bad" then .error (.apiError "boom2") else .ok ())
        "compute.snapshot" true false (["i1"] ++ "bad" :: ["i3"]) =
        (.error (.apiError "boom2"),
          (["i1"] ++ ["bad"]).map ApiCall.deleteSnapshot) :=
  snapshotLoops_stop_at_first_failure
    (fun id => if id == "bad" then .error (.apiError "boom") else .ok ⟨id, "n", []⟩)
    (fun id => if id == "bad" then .error (.apiError "boom2") else .ok ())
    "compute.snapshot" true false rfl ["i1"] ["i3"] "bad"
    (.apiError "boom") (.apiError "boom2")
    (by intro x hx; simp at hx; subst hx; exact ⟨⟨"i1", "n", []⟩, rfl⟩)
    rfl
    (by intro x hx; simp at hx; subst hx; rfl)
    rfl

/-- Claim C5: `RunSnapshotGet` and `RunSnapshotDelete` invoked with an empty
argument list return the fixed missing-required-arguments error for the
command's namespace and perform no API call. -/
theorem snapshot_missing_args (get : String → Except Err Snapshot)
    (del : String → Except Err Unit) (ns ns2 : String)
    (force confirmAccepted : Bool) :
    RunSnapshotGet get ns [] = (.error (.missingArgs ns), []) ∧
      RunSnapshotDelete del ns2 force confirmAccepted [] =
        (.error (.missingArgs ns2), []) :=
  ⟨rfl, rfl⟩

/-- Claim C7: when an underlying API call of `RunSnapshotList`,
`RunSnapshotGet` or `RunSnapshotDelete` fails, the command returns exactly
the error produced by that call, unchanged. -/
theorem snapshot_errors_passthrough :
    (∀ (compile : String → Option (String → Bool))
        (listDroplet listVolume listAll : Except Err (List Snapshot))
        (listVolumeByRegion : String → Except Err (List Snapshot))
        (restype region : String) (args : List String)
        (matchers : List (String → Bool)) (e : Err),
        compileGlobs compile args = .ok matchers →
        (fetchList listDroplet listVolume listAll listVolumeByRegion restype region).1 =
          .error e →
        (RunSnapshotList compile listDroplet listVolume listAll listVolumeByRegion
            restype region args).1 = .error e) ∧
      (∀ (get : String → Except Err Snapshot) (ns : String)
          (pre rest : List String) (id : String) (e : Err),
          (∀ x ∈ pre, ∃ s, get x = .ok s) → get id = .error e →
          (RunSnapshotGet get ns (pre ++ id :: rest)).1 = .error e) ∧
      (∀ (del : String → Except Err Unit) (ns : String)
          (force confirmAccepted : Bool) (pre rest : List String)
          (id : String) (e : Err),
          (force || confirmAccepted) = true →
          (∀ x ∈ pre, del x = .ok ()) → del id = .error e →
          (RunSnapshotDelete del ns force confirmAccepted (pre ++ id :: rest)).1 =
            .error e) := by
  refine ⟨?_, ?_, ?_⟩
  · intro compile listDroplet listVolume listAll listVolumeByRegion restype region
      args matchers e hc hf
    unfold RunSnapshotList
    rw [hc]
    rcases hfl : fetchList listDroplet listVolume listAll listVolumeByRegion restype region
      with ⟨res, call⟩
    rw [hfl] at hf
    simp only at hf
    subst hf
    rfl
  · intro get ns pre rest id e hpre hid
    unfold RunSnapshotGet
    rw [if_neg (by simp)]
    rw [snapshotGetLoop_first_error get id e hid pre rest hpre]
  · intro del ns force confirmAccepted pre rest id e hrun hpre hid
    unfold RunSnapshotDelete
    rw [if_neg (by simp), hrun, if_pos rfl]
    rw [snapshotDeleteLoop_first_error del id e hid pre rest hpre]

/-- Witness for claim C7 at concrete inputs: a failing droplet listing, a
failing get and a failing delete, each error surfacing unchanged. -/
theorem snapshot_errors_passthrough_witness :
    (RunSnapshotList (fun g => some (fun str => str == g))
        (.error (.apiError "list boom")) (.ok []) (.ok []) (fun _ => .ok [])
        "droplet" "" []).1 = .error (.apiError "list boom") ∧
      (RunSnapshotGet (fun _ => .error (.apiError "get boom")) "ns" ["i"]).1 =
        .error (.apiError "get boom") ∧
      (RunSnapshotDelete (fun _ => .error (.apiError "del boom")) "ns" true false
          ["i"]).1 = .error (.apiError "del boom") :=
  ⟨snapshot_errors_passthrough.1 (fun g => some (fun str => str == g))
      (.error (.apiError "list boom")) (.ok []) (.ok []) (fun _ => .ok [])
      "droplet" "" [] [] (.apiError "list boom") rfl rfl,
    snapshot_errors_passthrough.2.1 (fun _ => .error (.apiError "get boom")) "ns"
      [] [] "i" (.apiError "get boom") (by simp) rfl,
    snapshot_errors_passthrough.2.2 (fun _ => .error (.apiError "del boom")) "ns"
      true false [] [] "i" (.apiError "del boom") rfl (by simp) rfl⟩

/-- Claim C10: for every non-empty argument list on which all Get API calls
succeed, `RunSnapshotGet` displays exactly one snapshot per argument,
fetched and displayed in the same order as the arguments. -/
theorem snapshotGet_all_ok (get : String → Except Err Snapshot) (ns : String)
    (args : List String) (f : String → Snapshot) (hne : args ≠ [])
    (h : ∀ id ∈ args, get id = .ok (f id)) :
    RunSnapshotGet get ns args =
      (.ok (args.map f), args.map ApiCall.getSnapshot) := by
  unfold RunSnapshotGet
  rw [if_neg (by simpa using hne)]
  exact snapshotGetLoop_all_ok get f args h

/-- Witness for claim C10 at a concrete input: two IDs, both succeeding, are
fetched and displayed in argument order. -/
theorem snapshotGet_all_ok_witness :
    RunSnapshotGet (fun id => .ok ⟨id, "n", []⟩) "compute.snapshot"
        ["i1", "i2"] =
      (.ok (["i1", "i2"].map (fun id => (⟨id, "n", []⟩ : Snapshot))),
        ["i1", "i2"].map ApiCall.getSnapshot) :=
  snapshotGet_all_ok (fun id => .ok ⟨id, "n", []⟩) "compute.snapshot"
    ["i1", "i2"] (fun id => ⟨id, "n", []⟩) (by simp)
    (fun id _ => rfl)

/-- Counterexample to claim C4 as stated: a single `RunSnapshotDelete`
invocation with two IDs and the force flag performs two mutating Delete
calls, not at most one. -/
theorem snapshot_single_mutation_counterexample :
    ¬ (((RunSnapshotDelete (fun _ => .ok ()) "compute.snapshot" true false
        ["386734086", "386734087"]).2.filter ApiCall.isMutating).length ≤ 1) := by
  decide

/-- Claim C4 (amended): per invocation, the list and get commands perform no
mutating API call, and the delete command performs at most one mutating call
per supplied ID — at most as many mutations as arguments, rather than at
most one in total. -/
theorem snapshot_mutations_bounded_per_id :
    (∀ (compile : String → Option (String → Bool))
        (listDroplet listVolume listAll : Except Err (List Snapshot))
        (listVolumeByRegion : String → Except Err (List Snapshot))
        (restype region : String) (args : List String),
        (RunSnapshotList compile listDroplet listVolume listAll listVolumeByRegion
            restype region args).2.filter ApiCall.isMutating = []) ∧
      (∀ (get : String → Except Err Snapshot) (ns : String) (args : List String),
        (RunSnapshotGet get ns args).2.filter ApiCall.isMutating = []) ∧
      (∀ (del : String → Except Err Unit) (ns : String)
          (force confirmAccepted : Bool) (args : List String),
        ((RunSnapshotDelete del ns force confirmAccepted args).2.filter
            ApiCall.isMutating).length ≤ args.length) := by
  refine ⟨?_, ?_, ?_⟩
  · intro compile listDroplet listVolume listAll listVolumeByRegion restype region args
    unfold RunSnapshotList
    cases hc : compileGlobs compile args with
    | error e => simp
    | ok ms =>
      rcases hfl : fetchList listDroplet listVolume listAll listVolumeByRegion restype region
        with ⟨res, call⟩
      have hcall : ApiCall.isMutating call = false := by
        have hm := fetchList_not_mutating listDroplet listVolume listAll
          listVolumeByRegion restype region
        rw [hfl] at hm
        exact hm
      cases res <;> simp [hcall]
  · intro get ns args
    unfold RunSnapshotGet
    by_cases h : args.length = 0
    · rw [if_pos h]; simp [ApiCall.isMutating]
    · rw [if_neg h]; exact snapshotGetLoop_no_mutation get args
  · intro del ns force confirmAccepted args
    unfold RunSnapshotDelete
    by_cases h : args.length = 0
    · rw [if_pos h]; simp
    · rw [if_neg h]
      by_cases hfc : (force || confirmAccepted) = true
      · rw [hfc, if_pos rfl]
        calc ((snapshotDeleteLoop del args).2.filter ApiCall.isMutating).length
            ≤ (snapshotDeleteLoop del args).2.length := List.length_filter_le _ _
          _ ≤ args.length := snapshotDeleteLoop_calls_le del args
      · rw [Bool.not_eq_true] at hfc
        rw [hfc, if_neg (by simp)]
        simp

/-- Claim C6: the completion poller always terminates, either returning the
final fetched state — the state observed at the first attempt whose phase is
terminal, within the attempt budget — or returning the timeout error once
the maximum attempt count is exceeded; one of the two outcomes occurs on
every run. -/
theorem pollForCompletion_terminates {σ : Type} (fetch : Nat → σ)
    (isTerminal : σ → Bool) :
    ∀ maxAttempts attempt : Nat,
      (∃ k, attempt ≤ k ∧ k < attempt + maxAttempts ∧
          pollForCompletion fetch isTerminal attempt maxAttempts = .ok (fetch k) ∧
          isTerminal (fetch k) = true) ∨
        pollForCompletion fetch isTerminal attempt maxAttempts =
          .error "timeout waiting for completion" := by
  intro maxAttempts
  induction maxAttempts with
  | zero => intro attempt; right; rfl
  | succ n ih =>
    intro attempt
    by_cases h : isTerminal (fetch attempt) = true
    · left
      exact ⟨attempt, Nat.le_refl _, by omega, by simp [pollForCompletion, h], h⟩
    · rcases ih (attempt + 1) with ⟨k, hk1, hk2, hk3, hk4⟩ | hto
      · left
        refine ⟨k, by omega, by omega, ?_, hk4⟩
        rw [pollForCompletion]
        simp only [h, if_neg]
        simpa using hk3
      · right
        rw [pollForCompletion]
        simp only [h, if_neg]
        simpa using hto

end Doctl
